import Mathlib

/-!
Verification of the NeuronLab API client (src/neuronlab_api/data.py).

The client is a thin HTTP wrapper.  We embed it shallowly:

* decoded JSON bodies become the inductive type Json;
* the mutable client object becomes the structure NeuronLabAPI, with the
  one mutable field fetch_score threaded explicitly (the auth token and
  base URL are immutable after construction);
* the network is an oracle of type Request -> HTTPResponse passed to each
  operation; every operation returns the list of requests it issued, so
  that "no network call is made" is the statement requests = [];
* Python exceptions raised by the client become the ApiError sum; Python
  runtime errors that the source does not catch (TypeError, KeyError from
  subscripting the decoded bodies) become the uncaught constructor;
* requests.Response.raise_for_status raises exactly for status codes in
  400..599, which is embedded as the explicit range test.
-/

namespace NeuronLab

/-- Decoded JSON values, as produced by response.json(). -/
inductive Json where
  | null
  | bool (b : Bool)
  | num (n : Int)
  | str (s : String)
  | arr (elems : List Json)
  | obj (fields : List (String × Json))
  deriving Repr, BEq

/-- Python runtime errors that the source code does not catch. -/
inductive PyErr where
  | typeError
  | keyError
  deriving Repr, DecidableEq

/-- Python membership test key in j for a string key, as used on decoded
JSON: key lookup on a dict, substring test on a string, element test on a
list, TypeError on null, booleans and numbers. -/
def Json.hasMember (j : Json) (key : String) : Except PyErr Bool :=
  match j with
  | .obj fields => .ok ((fields.lookup key).isSome)
  | .str s => .ok (s.containsSubstr key.toSubstring)
  | .arr elems => .ok (elems.contains (.str key))
  | _ => .error .typeError

/-- Python subscript j[key] for a string key on decoded JSON: dict lookup
(KeyError when the key is absent), TypeError on every other value. -/
def Json.getKey (j : Json) (key : String) : Except PyErr Json :=
  match j with
  | .obj fields =>
    match fields.lookup key with
    | some v => .ok v
    | none => .error .keyError
  | _ => .error .typeError

/-- The error-message extraction both fetch operations perform on a decoded
error body:

  response_message = "Unknown error"
  if "error" in err_response_json and "message" in err_response_json["error"]:
      response_message = err_response_json["error"]["message"]
-/
def responseMessage (errResponseJson : Json) : Except PyErr Json :=
  match errResponseJson.hasMember "error" with
  | .error e => .error e
  | .ok false => .ok (.str "Unknown error")
  | .ok true =>
    match errResponseJson.getKey "error" with
    | .error e => .error e
    | .ok errorValue =>
      match errorValue.hasMember "message" with
      | .error e => .error e
      | .ok false => .ok (.str "Unknown error")
      | .ok true => errorValue.getKey "message"

/-- An HTTP response: final status code and decoded JSON body. -/
structure HTTPResponse where
  status_code : Nat
  body : Json
  deriving Repr

/-- An HTTP GET request as issued through the session: endpoint URL,
headers, and query parameters (insertion-ordered, as a Python dict). -/
structure Request where
  url : String
  headers : List (String × String)
  params : List (String × String)
  deriving Repr, DecidableEq

/-- requests.Response.raise_for_status raises HTTPError exactly for
status codes 400..599; other statuses (including 1xx and 3xx) pass. -/
def raiseForStatusRaises (status : Nat) : Bool :=
  400 ≤ status && status < 600

/-- The typed errors the client can raise.  The first four mirror the
NeuronLab exception classes; uncaught records a Python runtime error that
escapes the client (the source only catches HTTPError). -/
inductive ApiError where
  | invalidArgs (message : String)
  | badRequest (message : Json) (payload : List (String × String))
  | userNotFound (message : Json) (payload : List (String × String))
  | internalServer (message : Json) (payload : List (String × String))
  | uncaught (e : PyErr)
  deriving Repr

/-- The kind tag of an ApiError. -/
inductive ErrKind where
  | invalidArgs
  | badRequest
  | userNotFound
  | internalServer
  | uncaught
  deriving Repr, DecidableEq

def ApiError.kind : ApiError → ErrKind
  | .invalidArgs _ => .invalidArgs
  | .badRequest _ _ => .badRequest
  | .userNotFound _ _ => .userNotFound
  | .internalServer _ _ => .internalServer
  | .uncaught _ => .uncaught

/-- The message carried by an HTTP-mapped error, when there is one. -/
def ApiError.messageOf : ApiError → Option Json
  | .badRequest m _ => some m
  | .userNotFound m _ => some m
  | .internalServer m _ => some m
  | _ => none

/-- The request payload carried by an HTTP-mapped error, when there is one. -/
def ApiError.payloadOf : ApiError → Option (List (String × String))
  | .badRequest _ p => some p
  | .userNotFound _ p => some p
  | .internalServer _ p => some p
  | _ => none

/-- The client state.  neuronlab_auth_token and url are set at
construction and never written again; fetch_score is the one-shot
score flag (self._fetch_score). -/
structure NeuronLabAPI where
  neuronlab_auth_token : String
  url : String
  fetch_score : Bool
  deriving Repr, DecidableEq

/-- Construction: __init__ stores the token and URL and sets
self._fetch_score = False.  (The retry-configured session and proxy are
transport-level and carry no state the claims mention.) -/
def NeuronLabAPI.construct (neuronlab_auth_token url : String) : NeuronLabAPI :=
  { neuronlab_auth_token := neuronlab_auth_token, url := url, fetch_score := false }

/-- with_score: sets self._fetch_score = True and returns self. -/
def NeuronLabAPI.with_score (api : NeuronLabAPI) : NeuronLabAPI :=
  { api with fetch_score := true }

/-- The shared except-handler body, duplicated verbatim in both source
fetch operations: extract the message (fallback "Unknown error"), then
key the exception class on the status code. -/
def handleHTTPError (status : Nat) (body : Json)
    (payload : List (String × String)) : ApiError :=
  match responseMessage body with
  | .error e => .uncaught e
  | .ok response_message =>
    if status = 400 then .badRequest response_message payload
    else if status = 403 then .userNotFound response_message payload
    else .internalServer response_message payload

/-- The outcome of one client call: the returned value or raised error,
the client state afterwards, and the HTTP requests issued during the call. -/
structure FetchOutcome where
  result : Except ApiError Json
  state : NeuronLabAPI
  requests : List Request
  deriving Repr

/-- NeuronLabAPI._get_document_dataset(document_type, documents): the
shared batch fetch.  respond is the network: it maps the issued request
to the final HTTP response (after the session-level transport retries). -/
def NeuronLabAPI.get_document_dataset (api : NeuronLabAPI) (document_type : String)
    (documents : List String) (respond : Request → HTTPResponse) : FetchOutcome :=
  if documents.length = 0 then
    { result := .error (.invalidArgs
        "Empty document list, at least one document expected"),
      state := api, requests := [] }
  else
    let headers := [("Authorization", "Bearer " ++ api.neuronlab_auth_token)]
    let comma_separated_documents := String.intercalate "," documents
    let payload0 := [(document_type ++ "s", comma_separated_documents)]
    let payloadState :=
      if api.fetch_score then
        (payload0 ++ [("useScore", "true")], { api with fetch_score := false })
      else
        (payload0, api)
    let payload := payloadState.1
    let api1 := payloadState.2
    let document_endpoint :=
      api.url ++ "/api/" ++ document_type ++ "/search-" ++ document_type ++ "s"
    let req : Request := { url := document_endpoint, headers := headers, params := payload }
    let response := respond req
    let result : Except ApiError Json :=
      if raiseForStatusRaises response.status_code then
        .error (handleHTTPError response.status_code response.body payload)
      else
        match response.body.getKey "data" with
        | .ok d => .ok d
        | .error e => .error (.uncaught e)
    { result := result, state := api1, requests := [req] }

/-- get_cnpj_dataset(cnpjs) delegates to the shared batch fetch with
document_type = cnpj. -/
def NeuronLabAPI.get_cnpj_dataset (api : NeuronLabAPI) (cnpjs : List String)
    (respond : Request → HTTPResponse) : FetchOutcome :=
  api.get_document_dataset "cnpj" cnpjs respond

/-- get_cpf_dataset(cpfs) delegates to the shared batch fetch with
document_type = cpf. -/
def NeuronLabAPI.get_cpf_dataset (api : NeuronLabAPI) (cpfs : List String)
    (respond : Request → HTTPResponse) : FetchOutcome :=
  api.get_document_dataset "cpf" cpfs respond

/-- A Python datetime.date. -/
structure PyDate where
  year : Nat
  month : Nat
  day : Nat
  deriving Repr, DecidableEq

/-- Zero-pad the decimal rendering of n to the given width. -/
def padNum (width n : Nat) : String :=
  let s := toString n
  String.mk (List.replicate (width - s.length) '0') ++ s

/-- date.strftime with format %Y-%m-%d. -/
def PyDate.strftimeYMD (d : PyDate) : String :=
  padNum 4 d.year ++ "-" ++ padNum 2 d.month ++ "-" ++ padNum 2 d.day

/-- NeuronLabAPI._get_formatted_documents(document_type, start_date,
end_date): the shared formatted fetch.  A date of none models Python
None: its query parameter is not added at all. -/
def NeuronLabAPI.get_formatted_documents (api : NeuronLabAPI) (document_type : String)
    (start_date end_date : Option PyDate)
    (respond : Request → HTTPResponse) : FetchOutcome :=
  let headers := [("Authorization", "Bearer " ++ api.neuronlab_auth_token)]
  let payload1 : List (String × String) :=
    match start_date with
    | some d => [("startDate", d.strftimeYMD)]
    | none => []
  let payload : List (String × String) :=
    payload1 ++
      match end_date with
      | some d => [("endDate", d.strftimeYMD)]
      | none => []
  let document_endpoint :=
    api.url ++ "/api/" ++ document_type ++ "/" ++ document_type ++ "-data-formatted"
  let req : Request := { url := document_endpoint, headers := headers, params := payload }
  let response := respond req
  let result : Except ApiError Json :=
    if raiseForStatusRaises response.status_code then
      .error (handleHTTPError response.status_code response.body payload)
    else
      match response.body.getKey "data" with
      | .ok d => .ok d
      | .error e => .error (.uncaught e)
  { result := result, state := api, requests := [req] }

/-- fetch_all_cnpj_formatted(start_date, end_date). -/
def NeuronLabAPI.fetch_all_cnpj_formatted (api : NeuronLabAPI)
    (start_date end_date : Option PyDate)
    (respond : Request → HTTPResponse) : FetchOutcome :=
  api.get_formatted_documents "cnpj" start_date end_date respond

/-- fetch_all_cpf_formatted(start_date, end_date). -/
def NeuronLabAPI.fetch_all_cpf_formatted (api : NeuronLabAPI)
    (start_date end_date : Option PyDate)
    (respond : Request → HTTPResponse) : FetchOutcome :=
  api.get_formatted_documents "cpf" start_date end_date respond

/-! ## Helper lemmas -/

/-- Unfolding of the shared batch fetch on a non-empty document list. -/
theorem get_document_dataset_cons (api : NeuronLabAPI) (document_type d : String)
    (ds : List String) (respond : Request → HTTPResponse) :
    api.get_document_dataset document_type (d :: ds) respond =
      (let payload : List (String × String) :=
        if api.fetch_score then
          [(document_type ++ "s", String.intercalate "," (d :: ds)), ("useScore", "true")]
        else
          [(document_type ++ "s", String.intercalate "," (d :: ds))]
      let req : Request :=
        { url := api.url ++ "/api/" ++ document_type ++ "/search-" ++ document_type ++ "s",
          headers := [("Authorization", "Bearer " ++ api.neuronlab_auth_token)],
          params := payload }
      { result :=
          if raiseForStatusRaises (respond req).status_code then
            .error (handleHTTPError (respond req).status_code (respond req).body payload)
          else
            match (respond req).body.getKey "data" with
            | .ok v => .ok v
            | .error e => .error (.uncaught e),
        state := if api.fetch_score then { api with fetch_score := false } else api,
        requests := [req] }) := by
  cases h : api.fetch_score <;>
    simp [NeuronLabAPI.get_document_dataset, h]

/-- The kind of the error an outcome raised, when it raised one. -/
def FetchOutcome.errorKind (r : FetchOutcome) : Option ErrKind :=
  match r.result with
  | .error e => some e.kind
  | .ok _ => none

/-- The message of the HTTP-mapped error an outcome raised, when it
raised one. -/
def FetchOutcome.errorMessage (r : FetchOutcome) : Option Json :=
  match r.result with
  | .error e => e.messageOf
  | .ok _ => none

/-- The payload carried by the HTTP-mapped error an outcome raised, when
it raised one. -/
def FetchOutcome.errorPayload (r : FetchOutcome) : Option (List (String × String)) :=
  match r.result with
  | .error e => e.payloadOf
  | .ok _ => none

/-- For a body whose message extraction succeeds, the except-handler's
error kind is keyed on the status code alone. -/
theorem handleHTTPError_kind (status : Nat) (body : Json) (m : Json)
    (payload : List (String × String)) (hm : responseMessage body = .ok m) :
    (handleHTTPError status body payload).kind =
      (if status = 400 then ErrKind.badRequest
       else if status = 403 then ErrKind.userNotFound
       else ErrKind.internalServer) := by
  simp only [handleHTTPError, hm]
  split_ifs <;> rfl

/-! ## Claims -/

/-- C2: for every empty document list, both the CNPJ and the CPF batch
fetch fail with NeuronLabInvalidArgs (with the source's message) and issue
zero network calls: the outcome carries an empty request list and the
client state is returned untouched. -/
theorem C2_empty_documents_fail_fast (api : NeuronLabAPI)
    (respond : Request → HTTPResponse) :
    api.get_cnpj_dataset [] respond =
      { result := .error (.invalidArgs
          "Empty document list, at least one document expected"),
        state := api, requests := [] } ∧
    api.get_cpf_dataset [] respond =
      { result := .error (.invalidArgs
          "Empty document list, at least one document expected"),
        state := api, requests := [] } := by
  exact ⟨rfl, rfl⟩

/-- A concrete client for the C3 counterexample. -/
def c3_api : NeuronLabAPI := NeuronLabAPI.construct "tok" "http://svc"

/-- A network always answering 304 Not Modified with a JSON body holding a
data field: a non-2xx status that raise_for_status does not raise on. -/
def c3_respond : Request → HTTPResponse :=
  fun _ => { status_code := 304, body := .obj [("data", .str "payload")] }

/-- C3 counterexample: the claim says every non-2xx status other than 400
and 403 yields InternalServerError, but a 304 response is not mapped to
any error at all: raise_for_status only raises for statuses 400..599, so
the client treats 304 as success and returns the body's data field. -/
theorem C3_counterexample :
    (c3_respond { url := "", headers := [], params := [] }).status_code = 304 ∧
    ¬ (200 ≤ (c3_respond { url := "", headers := [], params := [] }).status_code ∧
       (c3_respond { url := "", headers := [], params := [] }).status_code < 300) ∧
    (c3_api.get_cnpj_dataset ["1"] c3_respond).result = .ok (.str "payload") := by
  exact ⟨rfl, by decide, rfl⟩

/-- C3 (amended): for every response whose status code is in 400..599 and
whose error body lets the message extraction succeed, the error kind
raised by the batch fetch and by the formatted fetch is keyed on the
status code: 400 yields BadRequest, 403 yields UserNotFound, any other
status in 400..599 yields InternalServerError.  (Statuses outside 400..599,
including non-2xx ones such as 304, are treated as success instead.) -/
theorem C3_amended_status_to_error_kind (api : NeuronLabAPI) (dt : String)
    (docs : List String) (sd ed : Option PyDate) (resp : HTTPResponse) (m : Json)
    (hne : docs ≠ []) (hs1 : 400 ≤ resp.status_code) (hs2 : resp.status_code < 600)
    (hm : responseMessage resp.body = .ok m) :
    (api.get_document_dataset dt docs fun _ => resp).errorKind =
      some (if resp.status_code = 400 then ErrKind.badRequest
            else if resp.status_code = 403 then ErrKind.userNotFound
            else ErrKind.internalServer) ∧
    (api.get_formatted_documents dt sd ed fun _ => resp).errorKind =
      some (if resp.status_code = 400 then ErrKind.badRequest
            else if resp.status_code = 403 then ErrKind.userNotFound
            else ErrKind.internalServer) := by
  have hraise : raiseForStatusRaises resp.status_code = true := by
    simp only [raiseForStatusRaises, Bool.and_eq_true, decide_eq_true_eq]
    omega
  constructor
  · obtain ⟨d, ds, rfl⟩ : ∃ d ds, docs = d :: ds := by
      cases docs with
      | nil => exact absurd rfl hne
      | cons d ds => exact ⟨d, ds, rfl⟩
    rw [get_document_dataset_cons]
    simp only [FetchOutcome.errorKind, hraise, if_true]
    rw [handleHTTPError_kind _ _ m _ hm]
  · simp only [NeuronLabAPI.get_formatted_documents, FetchOutcome.errorKind,
      hraise, if_true]
    rw [handleHTTPError_kind _ _ m _ hm]

/-- C3 amended, witness: a 403 response with an empty-object body maps
to UserNotFound on both operations. -/
theorem C3_amended_witness :
    ((NeuronLabAPI.construct "tok" "http://svc").get_document_dataset "cnpj" ["1"]
        fun _ => { status_code := 403, body := .obj [] }).errorKind =
      some ErrKind.userNotFound ∧
    ((NeuronLabAPI.construct "tok" "http://svc").get_formatted_documents "cnpj" none none
        fun _ => { status_code := 403, body := .obj [] }).errorKind =
      some ErrKind.userNotFound := by
  have h := C3_amended_status_to_error_kind (NeuronLabAPI.construct "tok" "http://svc")
    "cnpj" ["1"] none none { status_code := 403, body := .obj [] }
    (.str "Unknown error") (by decide) (by decide) (by decide) rfl
  simpa using h

/-- C1: on a client whose score flag is set, any batch fetch on a
non-empty list sends useScore=true, the flag is false afterwards whatever
the response was, and a following batch fetch (cnpj or cpf) sends no
useScore parameter at all. -/
theorem C1_with_score_applies_to_exactly_one_fetch (api : NeuronLabAPI)
    (dt1 dt2 : String) (docs1 docs2 : List String)
    (respond1 respond2 : Request → HTTPResponse)
    (hscore : api.fetch_score = true)
    (hdt2 : dt2 = "cnpj" ∨ dt2 = "cpf")
    (h1 : docs1 ≠ []) (h2 : docs2 ≠ []) :
    (∀ req, req ∈ (api.get_document_dataset dt1 docs1 respond1).requests →
        ("useScore", "true") ∈ req.params) ∧
    (api.get_document_dataset dt1 docs1 respond1).requests ≠ [] ∧
    (api.get_document_dataset dt1 docs1 respond1).state.fetch_score = false ∧
    (∀ req2, req2 ∈ ((api.get_document_dataset dt1 docs1 respond1).state.get_document_dataset
        dt2 docs2 respond2).requests → ∀ v, ("useScore", v) ∉ req2.params) := by
  obtain ⟨d1, ds1, rfl⟩ : ∃ d ds, docs1 = d :: ds := by
    cases docs1 with
    | nil => exact absurd rfl h1
    | cons d ds => exact ⟨d, ds, rfl⟩
  obtain ⟨d2, ds2, rfl⟩ : ∃ d ds, docs2 = d :: ds := by
    cases docs2 with
    | nil => exact absurd rfl h2
    | cons d ds => exact ⟨d, ds, rfl⟩
  rw [get_document_dataset_cons]
  refine ⟨?_, ?_, ?_, ?_⟩
  · intro req hreq
    simp only [hscore, if_true, List.mem_singleton] at hreq
    subst hreq
    simp
  · simp
  · simp [hscore]
  · intro req2 hreq2 v
    rw [get_document_dataset_cons] at hreq2
    simp only [hscore, if_true, List.mem_singleton] at hreq2
    subst hreq2
    rcases hdt2 with h | h <;> subst h <;> simp

/-- C1, witness at a concrete client, document lists and network. -/
theorem C1_witness :
    (∀ req, req ∈ ((NeuronLabAPI.mk "tok" "http://svc" true).get_document_dataset
        "cnpj" ["11"] fun _ => { status_code := 200, body := .obj [] }).requests →
        ("useScore", "true") ∈ req.params) ∧
    ((NeuronLabAPI.mk "tok" "http://svc" true).get_document_dataset
        "cnpj" ["11"] fun _ => { status_code := 200, body := .obj [] }).requests ≠ [] ∧
    ((NeuronLabAPI.mk "tok" "http://svc" true).get_document_dataset
        "cnpj" ["11"] fun _ => { status_code := 200, body := .obj [] }).state.fetch_score
      = false ∧
    (∀ req2, req2 ∈ (((NeuronLabAPI.mk "tok" "http://svc" true).get_document_dataset
        "cnpj" ["11"] fun _ => { status_code := 200, body := .obj [] }).state.get_document_dataset
        "cpf" ["22"] fun _ => { status_code := 200, body := .obj [] }).requests →
        ∀ v, ("useScore", v) ∉ req2.params) :=
  C1_with_score_applies_to_exactly_one_fetch
    (NeuronLabAPI.mk "tok" "http://svc" true) "cnpj" "cpf" ["11"] ["22"]
    (fun _ => { status_code := 200, body := .obj [] })
    (fun _ => { status_code := 200, body := .obj [] })
    rfl (Or.inr rfl) (by decide) (by decide)

/-- C4: for every non-empty document list, the batch fetch issues exactly
one request whose query parameters are the documents joined by commas
under the type-specific key (cnpjs or cpfs), followed by useScore=true
exactly when the one-shot score flag was set when they were built. -/
theorem C4_batch_query_parameters (api : NeuronLabAPI) (docs : List String)
    (respond : Request → HTTPResponse) (hne : docs ≠ []) :
    (api.get_cnpj_dataset docs respond).requests =
      [{ url := api.url ++ "/api/cnpj/search-cnpjs",
         headers := [("Authorization", "Bearer " ++ api.neuronlab_auth_token)],
         params := if api.fetch_score then
             [("cnpjs", String.intercalate "," docs), ("useScore", "true")]
           else [("cnpjs", String.intercalate "," docs)] }] ∧
    (api.get_cpf_dataset docs respond).requests =
      [{ url := api.url ++ "/api/cpf/search-cpfs",
         headers := [("Authorization", "Bearer " ++ api.neuronlab_auth_token)],
         params := if api.fetch_score then
             [("cpfs", String.intercalate "," docs), ("useScore", "true")]
           else [("cpfs", String.intercalate "," docs)] }] := by
  obtain ⟨d, ds, rfl⟩ : ∃ d ds, docs = d :: ds := by
    cases docs with
    | nil => exact absurd rfl hne
    | cons d ds => exact ⟨d, ds, rfl⟩
  rw [NeuronLabAPI.get_cnpj_dataset, NeuronLabAPI.get_cpf_dataset,
    get_document_dataset_cons, get_document_dataset_cons]
  cases h : api.fetch_score <;> simp [h, String.append_assoc]

/-- C4, witness at a concrete client with the score flag set. -/
theorem C4_witness :
    ((NeuronLabAPI.mk "tok" "http://svc" true).get_cnpj_dataset ["11", "22"]
        fun _ => { status_code := 200, body := .obj [] }).requests =
      [{ url := "http://svc" ++ "/api/cnpj/search-cnpjs",
         headers := [("Authorization", "Bearer " ++ "tok")],
         params := if (NeuronLabAPI.mk "tok" "http://svc" true).fetch_score then
             [("cnpjs", String.intercalate "," ["11", "22"]), ("useScore", "true")]
           else [("cnpjs", String.intercalate "," ["11", "22"])] }] ∧
    ((NeuronLabAPI.mk "tok" "http://svc" true).get_cpf_dataset ["11", "22"]
        fun _ => { status_code := 200, body := .obj [] }).requests =
      [{ url := "http://svc" ++ "/api/cpf/search-cpfs",
         headers := [("Authorization", "Bearer " ++ "tok")],
         params := if (NeuronLabAPI.mk "tok" "http://svc" true).fetch_score then
             [("cpfs", String.intercalate "," ["11", "22"]), ("useScore", "true")]
           else [("cpfs", String.intercalate "," ["11", "22"])] }] :=
  C4_batch_query_parameters (NeuronLabAPI.mk "tok" "http://svc" true) ["11", "22"]
    (fun _ => { status_code := 200, body := .obj [] }) (by decide)

/-- C5: for every non-empty document list, the batch fetch issues exactly
one GET request, to baseURL/api/documentType/search-documentTypes with the
Authorization Bearer token header, and on a 2xx response whose body has a
data field it returns exactly that field. -/
theorem C5_batch_request_shape_and_success (api : NeuronLabAPI) (dt : String)
    (docs : List String) (resp : HTTPResponse) (d : Json)
    (hne : docs ≠ []) (h2a : 200 ≤ resp.status_code) (h2b : resp.status_code < 300)
    (hdata : resp.body.getKey "data" = .ok d) :
    (∀ req, req ∈ (api.get_document_dataset dt docs fun _ => resp).requests →
        req.url = api.url ++ "/api/" ++ dt ++ "/search-" ++ dt ++ "s" ∧
        req.headers = [("Authorization", "Bearer " ++ api.neuronlab_auth_token)]) ∧
    (api.get_document_dataset dt docs fun _ => resp).requests.length = 1 ∧
    (api.get_document_dataset dt docs fun _ => resp).result = .ok d := by
  have hraise : raiseForStatusRaises resp.status_code = false := by
    simp only [raiseForStatusRaises, Bool.and_eq_false_iff, decide_eq_false_iff_not]
    omega
  obtain ⟨d1, ds1, rfl⟩ : ∃ a as, docs = a :: as := by
    cases docs with
    | nil => exact absurd rfl hne
    | cons a as => exact ⟨a, as, rfl⟩
  rw [get_document_dataset_cons]
  refine ⟨?_, by simp, ?_⟩
  · intro req hreq
    simp only [List.mem_singleton] at hreq
    subst hreq
    exact ⟨rfl, rfl⟩
  · simp [hraise, hdata]

/-- C5, witness at a concrete client and a 200 response. -/
theorem C5_witness :
    (∀ req, req ∈ ((NeuronLabAPI.construct "tok" "http://svc").get_document_dataset
        "cnpj" ["11"] fun _ =>
          { status_code := 200, body := .obj [("data", .arr [])] }).requests →
        req.url = "http://svc" ++ "/api/" ++ "cnpj" ++ "/search-" ++ "cnpj" ++ "s" ∧
        req.headers = [("Authorization", "Bearer " ++ "tok")]) ∧
    ((NeuronLabAPI.construct "tok" "http://svc").get_document_dataset
        "cnpj" ["11"] fun _ =>
          { status_code := 200, body := .obj [("data", .arr [])] }).requests.length = 1 ∧
    ((NeuronLabAPI.construct "tok" "http://svc").get_document_dataset
        "cnpj" ["11"] fun _ =>
          { status_code := 200, body := .obj [("data", .arr [])] }).result =
      .ok (.arr []) :=
  C5_batch_request_shape_and_success (NeuronLabAPI.construct "tok" "http://svc")
    "cnpj" ["11"] { status_code := 200, body := .obj [("data", .arr [])] }
    (.arr []) (by decide) (by decide) (by decide) rfl

/-- C6: every formatted-export call issues exactly one request, to
baseURL/api/documentType/documentType-data-formatted; a date that is none
contributes no query parameter at all, and a supplied date is serialized
zero-padded as YYYY-MM-DD under startDate or endDate respectively. -/
theorem C6_formatted_url_and_date_parameters (api : NeuronLabAPI) (dt : String)
    (sd ed : Option PyDate) (respond : Request → HTTPResponse) :
    (api.get_formatted_documents dt sd ed respond).requests =
      [{ url := api.url ++ "/api/" ++ dt ++ "/" ++ dt ++ "-data-formatted",
         headers := [("Authorization", "Bearer " ++ api.neuronlab_auth_token)],
         params :=
           (match sd with
            | some d => [("startDate",
                padNum 4 d.year ++ "-" ++ padNum 2 d.month ++ "-" ++ padNum 2 d.day)]
            | none => []) ++
           (match ed with
            | some d => [("endDate",
                padNum 4 d.year ++ "-" ++ padNum 2 d.month ++ "-" ++ padNum 2 d.day)]
            | none => []) }] ∧
    PyDate.strftimeYMD { year := 2024, month := 3, day := 7 } = "2024-03-07" := by
  constructor
  · simp only [NeuronLabAPI.get_formatted_documents, PyDate.strftimeYMD]
  · rfl

/-- responseMessage on an object body with no error key falls back. -/
theorem responseMessage_no_error_key (fields : List (String × Json))
    (h : fields.lookup "error" = none) :
    responseMessage (.obj fields) = .ok (.str "Unknown error") := by
  simp [responseMessage, Json.hasMember, h]

/-- responseMessage on an object body whose error value is an object with
no message key falls back. -/
theorem responseMessage_no_message_key (fields efields : List (String × Json))
    (he : fields.lookup "error" = some (.obj efields))
    (hm : efields.lookup "message" = none) :
    responseMessage (.obj fields) = .ok (.str "Unknown error") := by
  simp [responseMessage, Json.hasMember, Json.getKey, he, hm]

/-- responseMessage on an object body whose error value is an object with
a message key returns that message. -/
theorem responseMessage_message_key (fields efields : List (String × Json)) (m : Json)
    (he : fields.lookup "error" = some (.obj efields))
    (hm : efields.lookup "message" = some m) :
    responseMessage (.obj fields) = .ok m := by
  simp [responseMessage, Json.hasMember, Json.getKey, he, hm]

/-- When the message extraction succeeds, every except-handler error
carries that message. -/
theorem handleHTTPError_messageOf (status : Nat) (body m : Json)
    (payload : List (String × String)) (hm : responseMessage body = .ok m) :
    (handleHTTPError status body payload).messageOf = some m := by
  simp only [handleHTTPError, hm]
  split_ifs <;> rfl

/-- When the message extraction succeeds, every except-handler error
carries the request payload. -/
theorem handleHTTPError_payloadOf (status : Nat) (body m : Json)
    (payload : List (String × String)) (hm : responseMessage body = .ok m) :
    (handleHTTPError status body payload).payloadOf = some payload := by
  simp only [handleHTTPError, hm]
  split_ifs <;> rfl

/-- Error-path outcome of the batch fetch against a fixed response. -/
theorem get_document_dataset_error_outcome (api : NeuronLabAPI) (dt d : String)
    (ds : List String) (status : Nat) (body m : Json)
    (hraise : raiseForStatusRaises status = true)
    (hm : responseMessage body = .ok m) :
    (api.get_document_dataset dt (d :: ds) fun _ =>
        { status_code := status, body := body }).errorMessage = some m ∧
    (api.get_document_dataset dt (d :: ds) fun _ =>
        { status_code := status, body := body }).errorPayload =
      some (if api.fetch_score then
          [(dt ++ "s", String.intercalate "," (d :: ds)), ("useScore", "true")]
        else [(dt ++ "s", String.intercalate "," (d :: ds))]) := by
  rw [get_document_dataset_cons]
  constructor
  · simp only [FetchOutcome.errorMessage, hraise, if_true]
    exact handleHTTPError_messageOf _ _ _ _ hm
  · simp only [FetchOutcome.errorPayload, hraise, if_true]
    exact handleHTTPError_payloadOf _ _ _ _ hm

/-- Error-path outcome of the formatted fetch against a fixed response. -/
theorem get_formatted_documents_error_outcome (api : NeuronLabAPI) (dt : String)
    (sd ed : Option PyDate) (status : Nat) (body m : Json)
    (hraise : raiseForStatusRaises status = true)
    (hm : responseMessage body = .ok m) :
    (api.get_formatted_documents dt sd ed fun _ =>
        { status_code := status, body := body }).errorMessage = some m ∧
    (api.get_formatted_documents dt sd ed fun _ =>
        { status_code := status, body := body }).errorPayload =
      some ((match sd with
             | some dte => [("startDate", dte.strftimeYMD)]
             | none => []) ++
            (match ed with
             | some dte => [("endDate", dte.strftimeYMD)]
             | none => [])) := by
  constructor
  · simp only [NeuronLabAPI.get_formatted_documents, FetchOutcome.errorMessage,
      hraise, if_true]
    exact handleHTTPError_messageOf _ _ _ _ hm
  · simp only [NeuronLabAPI.get_formatted_documents, FetchOutcome.errorPayload,
      hraise, if_true]
    exact handleHTTPError_payloadOf _ _ _ _ hm

/-- C7: on an error response (status 400..599) whose object body has no
error key, or whose error value is an object without a message key, both
operations raise an error carrying the fallback message "Unknown error";
when the message field is present, the raised error carries exactly it. -/
theorem C7_error_message_extraction (api : NeuronLabAPI) (dt : String)
    (docs : List String) (sd ed : Option PyDate) (status : Nat)
    (fields : List (String × Json))
    (hne : docs ≠ []) (hs1 : 400 ≤ status) (hs2 : status < 600) :
    ((fields.lookup "error" = none ∨
      (∃ efields, fields.lookup "error" = some (.obj efields) ∧
        efields.lookup "message" = none)) →
      (api.get_document_dataset dt docs fun _ =>
          { status_code := status, body := .obj fields }).errorMessage =
        some (.str "Unknown error") ∧
      (api.get_formatted_documents dt sd ed fun _ =>
          { status_code := status, body := .obj fields }).errorMessage =
        some (.str "Unknown error")) ∧
    (∀ efields m, fields.lookup "error" = some (.obj efields) →
      efields.lookup "message" = some m →
      (api.get_document_dataset dt docs fun _ =>
          { status_code := status, body := .obj fields }).errorMessage = some m ∧
      (api.get_formatted_documents dt sd ed fun _ =>
          { status_code := status, body := .obj fields }).errorMessage = some m) := by
  have hraise : raiseForStatusRaises status = true := by
    simp only [raiseForStatusRaises, Bool.and_eq_true, decide_eq_true_eq]
    omega
  obtain ⟨d1, ds1, rfl⟩ : ∃ a as, docs = a :: as := by
    cases docs with
    | nil => exact absurd rfl hne
    | cons a as => exact ⟨a, as, rfl⟩
  constructor
  · intro hcase
    have hm : responseMessage (.obj fields) = .ok (.str "Unknown error") := by
      rcases hcase with h | ⟨efields, he, hmsg⟩
      · exact responseMessage_no_error_key fields h
      · exact responseMessage_no_message_key fields efields he hmsg
    exact ⟨(get_document_dataset_error_outcome api dt d1 ds1 status _ _ hraise hm).1,
      (get_formatted_documents_error_outcome api dt sd ed status _ _ hraise hm).1⟩
  · intro efields m he hmsg
    have hm : responseMessage (.obj fields) = .ok m :=
      responseMessage_message_key fields efields m he hmsg
    exact ⟨(get_document_dataset_error_outcome api dt d1 ds1 status _ _ hraise hm).1,
      (get_formatted_documents_error_outcome api dt sd ed status _ _ hraise hm).1⟩

/-- C7, witness: a 500 body with an empty error object falls back to
"Unknown error"; a body with an error message carries it exactly. -/
theorem C7_witness :
    ((NeuronLabAPI.construct "tok" "u").get_document_dataset "cnpj" ["1"] fun _ =>
        { status_code := 500, body := .obj [("error", .obj [])] }).errorMessage =
      some (.str "Unknown error") ∧
    ((NeuronLabAPI.construct "tok" "u").get_document_dataset "cnpj" ["1"] fun _ =>
        { status_code := 500,
          body := .obj [("error", .obj [("message", .str "boom")])] }).errorMessage =
      some (.str "boom") := by
  constructor
  · exact ((C7_error_message_extraction (NeuronLabAPI.construct "tok" "u") "cnpj"
      ["1"] none none 500 [("error", .obj [])] (by decide) (by decide) (by decide)).1
      (Or.inr ⟨[], rfl, rfl⟩)).1
  · exact ((C7_error_message_extraction (NeuronLabAPI.construct "tok" "u") "cnpj"
      ["1"] none none 500 [("error", .obj [("message", .str "boom")])]
      (by decide) (by decide) (by decide)).2
      [("message", .str "boom")] (.str "boom") rfl rfl).1

/-- C8: on an error response (status 400..599) whose message extraction
succeeds, the error raised by the batch fetch and by the formatted fetch
carries exactly the query-parameter mapping of the one request issued. -/
theorem C8_errors_carry_request_payload (api : NeuronLabAPI) (dt : String)
    (docs : List String) (sd ed : Option PyDate) (status : Nat) (body m : Json)
    (hne : docs ≠ []) (hs1 : 400 ≤ status) (hs2 : status < 600)
    (hm : responseMessage body = .ok m) :
    (∀ req, req ∈ (api.get_document_dataset dt docs fun _ =>
        { status_code := status, body := body }).requests →
      (api.get_document_dataset dt docs fun _ =>
        { status_code := status, body := body }).errorPayload = some req.params) ∧
    (api.get_document_dataset dt docs fun _ =>
        { status_code := status, body := body }).requests ≠ [] ∧
    (∀ req, req ∈ (api.get_formatted_documents dt sd ed fun _ =>
        { status_code := status, body := body }).requests →
      (api.get_formatted_documents dt sd ed fun _ =>
        { status_code := status, body := body }).errorPayload = some req.params) ∧
    (api.get_formatted_documents dt sd ed fun _ =>
        { status_code := status, body := body }).requests ≠ [] := by
  have hraise : raiseForStatusRaises status = true := by
    simp only [raiseForStatusRaises, Bool.and_eq_true, decide_eq_true_eq]
    omega
  obtain ⟨d1, ds1, rfl⟩ : ∃ a as, docs = a :: as := by
    cases docs with
    | nil => exact absurd rfl hne
    | cons a as => exact ⟨a, as, rfl⟩
  refine ⟨?_, ?_, ?_, ?_⟩
  · intro req hreq
    rw [get_document_dataset_cons] at hreq
    simp only [List.mem_singleton] at hreq
    subst hreq
    exact (get_document_dataset_error_outcome api dt d1 ds1 status body m hraise hm).2
  · rw [get_document_dataset_cons]
    simp
  · intro req hreq
    simp only [NeuronLabAPI.get_formatted_documents, List.mem_singleton] at hreq
    subst hreq
    exact (get_formatted_documents_error_outcome api dt sd ed status body m hraise hm).2
  · simp [NeuronLabAPI.get_formatted_documents]

/-- C8, witness at concrete inputs: the payloads carried by the raised
errors are exactly the query parameters sent. -/
theorem C8_witness :
    ((NeuronLabAPI.construct "tok" "u").get_document_dataset "cnpj" ["1"] fun _ =>
        { status_code := 500, body := .obj [] }).errorPayload =
      some [("cnpjs", "1")] ∧
    ((NeuronLabAPI.construct "tok" "u").get_formatted_documents "cnpj"
        (some { year := 2024, month := 3, day := 7 }) none fun _ =>
        { status_code := 500, body := .obj [] }).errorPayload =
      some [("startDate", "2024-03-07")] := by
  have h := C8_errors_carry_request_payload (NeuronLabAPI.construct "tok" "u")
    "cnpj" ["1"] (some { year := 2024, month := 3, day := 7 }) none 500
    (.obj []) (.str "Unknown error") (by decide) (by decide) (by decide) rfl
  constructor
  · exact h.1 (Request.mk "u/api/cnpj/search-cnpjs"
      [("Authorization", "Bearer tok")] [("cnpjs", "1")]) (by decide)
  · exact h.2.2.1 (Request.mk "u/api/cnpj/cnpj-data-formatted"
      [("Authorization", "Bearer tok")] [("startDate", "2024-03-07")]) (by decide)

/-- C9: a batch fetch on an empty document list leaves the client state
untouched (in particular the one-shot score flag is not consumed) and
issues no request; a set flag therefore still applies to the next
non-empty batch fetch, which sends useScore=true. -/
theorem C9_empty_failure_preserves_flag (api : NeuronLabAPI)
    (respond respond2 : Request → HTTPResponse) (dt2 : String) (docs2 : List String)
    (hscore : api.fetch_score = true) (h2 : docs2 ≠ []) :
    (api.get_cnpj_dataset [] respond).state = api ∧
    (api.get_cpf_dataset [] respond).state = api ∧
    (api.get_cnpj_dataset [] respond).requests = [] ∧
    (api.get_cnpj_dataset [] respond).state.fetch_score = true ∧
    (∀ req, req ∈ ((api.get_cnpj_dataset [] respond).state.get_document_dataset
        dt2 docs2 respond2).requests → ("useScore", "true") ∈ req.params) := by
  obtain ⟨d2, ds2, rfl⟩ : ∃ a as, docs2 = a :: as := by
    cases docs2 with
    | nil => exact absurd rfl h2
    | cons a as => exact ⟨a, as, rfl⟩
  refine ⟨rfl, rfl, rfl, hscore, ?_⟩
  intro req hreq
  have hstate : (api.get_cnpj_dataset [] respond).state = api := rfl
  rw [hstate, get_document_dataset_cons] at hreq
  simp only [hscore, if_true, List.mem_singleton] at hreq
  subst hreq
  simp

/-- C9, witness at a concrete client with the flag set. -/
theorem C9_witness :
    ((NeuronLabAPI.mk "tok" "u" true).get_cnpj_dataset []
        fun _ => { status_code := 200, body := .obj [] }).state =
      NeuronLabAPI.mk "tok" "u" true ∧
    ((NeuronLabAPI.mk "tok" "u" true).get_cpf_dataset []
        fun _ => { status_code := 200, body := .obj [] }).state =
      NeuronLabAPI.mk "tok" "u" true ∧
    ((NeuronLabAPI.mk "tok" "u" true).get_cnpj_dataset []
        fun _ => { status_code := 200, body := .obj [] }).requests = [] ∧
    ((NeuronLabAPI.mk "tok" "u" true).get_cnpj_dataset []
        fun _ => { status_code := 200, body := .obj [] }).state.fetch_score = true ∧
    (∀ req, req ∈ (((NeuronLabAPI.mk "tok" "u" true).get_cnpj_dataset []
        fun _ => { status_code := 200, body := .obj [] }).state.get_document_dataset
        "cnpj" ["1"] fun _ => { status_code := 200, body := .obj [] }).requests →
      ("useScore", "true") ∈ req.params) :=
  C9_empty_failure_preserves_flag (NeuronLabAPI.mk "tok" "u" true)
    (fun _ => { status_code := 200, body := .obj [] })
    (fun _ => { status_code := 200, body := .obj [] })
    "cnpj" ["1"] rfl (by decide)

/-- C10: the formatted-export operations never read or clear the one-shot
score flag: after with_score they return the state unchanged (flag still
set), their requests carry no useScore parameter, and the flag still
applies to the next batch fetch. -/
theorem C10_formatted_ops_do_not_touch_flag (api : NeuronLabAPI)
    (sd ed : Option PyDate) (respond1 respond2 respond3 : Request → HTTPResponse)
    (docs : List String) (hne : docs ≠ []) :
    ((api.with_score).fetch_all_cnpj_formatted sd ed respond1).state = api.with_score ∧
    ((api.with_score).fetch_all_cpf_formatted sd ed respond2).state = api.with_score ∧
    ((api.with_score).fetch_all_cnpj_formatted sd ed respond1).state.fetch_score = true ∧
    (∀ req, req ∈ ((api.with_score).fetch_all_cnpj_formatted sd ed respond1).requests →
      ∀ v, ("useScore", v) ∉ req.params) ∧
    (∀ req, req ∈ ((api.with_score).fetch_all_cpf_formatted sd ed respond2).requests →
      ∀ v, ("useScore", v) ∉ req.params) ∧
    (∀ req, req ∈ (((api.with_score).fetch_all_cnpj_formatted sd ed
        respond1).state.get_document_dataset "cnpj" docs respond3).requests →
      ("useScore", "true") ∈ req.params) := by
  obtain ⟨d1, ds1, rfl⟩ : ∃ a as, docs = a :: as := by
    cases docs with
    | nil => exact absurd rfl hne
    | cons a as => exact ⟨a, as, rfl⟩
  refine ⟨rfl, rfl, rfl, ?_, ?_, ?_⟩
  · intro req hreq v
    simp only [NeuronLabAPI.fetch_all_cnpj_formatted,
      NeuronLabAPI.get_formatted_documents, List.mem_singleton] at hreq
    subst hreq
    cases sd <;> cases ed <;> simp
  · intro req hreq v
    simp only [NeuronLabAPI.fetch_all_cpf_formatted,
      NeuronLabAPI.get_formatted_documents, List.mem_singleton] at hreq
    subst hreq
    cases sd <;> cases ed <;> simp
  · intro req hreq
    have hstate : ((api.with_score).fetch_all_cnpj_formatted sd ed respond1).state =
        api.with_score := rfl
    rw [hstate, get_document_dataset_cons] at hreq
    simp only [NeuronLabAPI.with_score, if_true, List.mem_singleton] at hreq
    subst hreq
    simp

/-- C10, witness at a concrete client, dates and network. -/
theorem C10_witness :
    (((NeuronLabAPI.mk "tok" "u" false).with_score).fetch_all_cnpj_formatted
        (some { year := 2024, month := 3, day := 7 }) none
        (fun _ => { status_code := 200, body := .obj [] })).state =
      (NeuronLabAPI.mk "tok" "u" false).with_score ∧
    (((NeuronLabAPI.mk "tok" "u" false).with_score).fetch_all_cpf_formatted
        (some { year := 2024, month := 3, day := 7 }) none
        (fun _ => { status_code := 200, body := .obj [] })).state =
      (NeuronLabAPI.mk "tok" "u" false).with_score ∧
    (((NeuronLabAPI.mk "tok" "u" false).with_score).fetch_all_cnpj_formatted
        (some { year := 2024, month := 3, day := 7 }) none
        (fun _ => { status_code := 200, body := .obj [] })).state.fetch_score = true ∧
    (∀ req, req ∈ (((NeuronLabAPI.mk "tok" "u" false).with_score).fetch_all_cnpj_formatted
        (some { year := 2024, month := 3, day := 7 }) none
        (fun _ => { status_code := 200, body := .obj [] })).requests →
      ∀ v, ("useScore", v) ∉ req.params) ∧
    (∀ req, req ∈ (((NeuronLabAPI.mk "tok" "u" false).with_score).fetch_all_cpf_formatted
        (some { year := 2024, month := 3, day := 7 }) none
        (fun _ => { status_code := 200, body := .obj [] })).requests →
      ∀ v, ("useScore", v) ∉ req.params) ∧
    (∀ req, req ∈ ((((NeuronLabAPI.mk "tok" "u" false).with_score).fetch_all_cnpj_formatted
        (some { year := 2024, month := 3, day := 7 }) none
        (fun _ => { status_code := 200, body := .obj [] })).state.get_document_dataset
        "cnpj" ["1"] fun _ => { status_code := 200, body := .obj [] }).requests →
      ("useScore", "true") ∈ req.params) :=
  C10_formatted_ops_do_not_touch_flag (NeuronLabAPI.mk "tok" "u" false)
    (some { year := 2024, month := 3, day := 7 }) none
    (fun _ => { status_code := 200, body := .obj [] })
    (fun _ => { status_code := 200, body := .obj [] })
    (fun _ => { status_code := 200, body := .obj [] })
    ["1"] (by decide)

end NeuronLab
